import Mathlib

/-!
Verification of the ns-3 chain-topology emulator (`emulator.cc`).

The program builds a linear chain of `noOfRouters` routers between two
OS-facing tap-bridge endpoints, assigns one /24 subnet per link, installs
tap bridges on the two outer devices, populates global routing tables and
runs the real-time simulation.

We embed `main` as a pure function producing the ordered trace of engine
operations it performs (node creation, link creation, protocol-stack
installation, address assignment, tap-bridge installation, routing
population, simulation run), guarded by the router-count validation that
precedes all construction.  All claims are settled against this trace.
-/

namespace Emulator

/-- A network device, identified by the link it was created on
(`csma.Install` creation order: first link is 0, the interior loop's
iteration `router` creates link `router`, the last link is `noOfRouters`)
and its index within that link's device container (0 or 1). -/
structure Device where
  linkIdx : Nat
  devIdx : Nat
deriving DecidableEq, BEq

/-- An IPv4 subnet, as passed to `Ipv4AddressHelper::SetBase`: four base
octets and four mask octets. -/
structure SubnetBlock where
  b1 : Nat
  b2 : Nat
  b3 : Nat
  b4 : Nat
  m1 : Nat
  m2 : Nat
  m3 : Nat
  m4 : Nat
deriving DecidableEq, BEq

/-- An IPv4 address as four octets (each in [0,255]). -/
structure Ipv4Addr where
  a1 : Nat
  a2 : Nat
  a3 : Nat
  a4 : Nat

/-- Whether an address lies in the range described by a subnet block:
each octet agrees with the base octet on the masked bits. -/
def SubnetBlock.containsAddr (s : SubnetBlock) (x : Ipv4Addr) : Prop :=
  x.a1 &&& s.m1 = s.b1 &&& s.m1 ∧ x.a2 &&& s.m2 = s.b2 &&& s.m2 ∧
  x.a3 &&& s.m3 = s.b3 &&& s.m3 ∧ x.a4 &&& s.m4 = s.b4 &&& s.m4

/-- Two subnet blocks overlap when some address lies in both ranges. -/
def SubnetBlock.overlaps (s t : SubnetBlock) : Prop :=
  ∃ x : Ipv4Addr, s.containsAddr x ∧ t.containsAddr x

/-- The block `172.20.<i>.0 / 255.255.255.0`, as built by the string
concatenation `"172.20." + std::to_string(i) + ".0"` with netmask
`"255.255.255.0"` in `main`. -/
def subnetForOctet (i : Nat) : SubnetBlock :=
  ⟨172, 20, i, 0, 255, 255, 255, 0⟩

/-- One engine operation performed by `main`. -/
inductive Event where
  /-- `nodes.Create(count)` -/
  | createNodes (count : Nat)
  /-- `csma.Install(NodeContainer(nodes.Get(a), nodes.Get(b)))` with the
  channel attributes currently set on the helper -/
  | createLink (a b : Nat) (dataRateMbps : Nat) (delayNs : Nat)
  /-- `stack.Install(nodes.Get(node))` -/
  | installStack (node : Nat)
  /-- `addresses.Assign(dev)` after `addresses.SetBase(block)` -/
  | assignAddress (block : SubnetBlock) (dev : Device)
  /-- `tapBridge.Install(nodes.Get(node), dev)` -/
  | tapBridgeInstall (node : Nat) (dev : Device)
  /-- `Ipv4GlobalRoutingHelper::PopulateRoutingTables()` -/
  | populateRoutingTables
  /-- `Simulator::Run()` -/
  | simulatorRun
deriving DecidableEq, BEq

/-- The construction phase of `main` (lines 40-87), for a router count `n`
that already passed validation: create `2 + n` nodes; create the first
link between nodes 0 and 1; install the internet stack on nodes
`1..n` (loop `router = 1; router < n + 1`); assign `172.20.0.0/24` to
device 1 of the first link only; for `router = 1; router < n` create the
link `(router, router+1)` and assign `172.20.<router>.0/24` to both of
its devices; create the last link `(n, n+1)` and assign
`172.20.<n>.0/24` to its device 0 only; install the two tap bridges on
node 0 with device 0 of the first link and on node `n+1` with device 1
of the last link, in that order.  The CSMA helper is configured once
with data rate `1000Mbps` and the CLI-supplied delay, so every link is
created with those same attributes. -/
def buildPhase (n delayNs : Nat) : List Event :=
  [Event.createNodes (2 + n),
   Event.createLink 0 1 1000 delayNs]
  ++ (List.range n).map (fun k => Event.installStack (k + 1))
  ++ [Event.assignAddress (subnetForOctet 0) ⟨0, 1⟩]
  ++ (List.range (n - 1)).flatMap (fun k =>
       [Event.createLink (k + 1) (k + 2) 1000 delayNs,
        Event.assignAddress (subnetForOctet (k + 1)) ⟨k + 1, 0⟩,
        Event.assignAddress (subnetForOctet (k + 1)) ⟨k + 1, 1⟩])
  ++ [Event.createLink n (n + 1) 1000 delayNs,
      Event.assignAddress (subnetForOctet n) ⟨n, 0⟩,
      Event.tapBridgeInstall 0 ⟨0, 0⟩,
      Event.tapBridgeInstall (n + 1) ⟨n, 1⟩]

/-- The full operation trace of `main` after validation: the construction
phase, then `PopulateRoutingTables` guarded by `if (noOfRouters != 0)`,
then `Simulator::Run()`. -/
def mainTrace (n delayNs : Nat) : List Event :=
  buildPhase n delayNs
    ++ ((if n ≠ 0 then [Event.populateRoutingTables] else [])
          ++ [Event.simulatorRun])

/-- The whole of `main`: if `noOfRouters == 0 || noOfRouters > 63` log an
error and exit with code 1 before any construction; otherwise perform
the trace and exit 0.  Result: (exit code, trace of operations). -/
def emulatorMain (n delayNs : Nat) : Nat × List Event :=
  if n = 0 ∨ 63 < n then (1, []) else (0, mainTrace n delayNs)

/-- The links created by a trace, in creation order, as pairs of node
indices (the two members of the `NodeContainer` handed to
`csma.Install`). -/
def createdLinks (t : List Event) : List (Nat × Nat) :=
  t.filterMap fun e => match e with
    | .createLink a b _ _ => some (a, b)
    | _ => none

/-- The channel attributes (data rate in Mbps, delay in ns) of each
created link, in creation order. -/
def linkSettings (t : List Event) : List (Nat × Nat) :=
  t.filterMap fun e => match e with
    | .createLink _ _ r d => some (r, d)
    | _ => none

/-- Total number of nodes created by a trace. -/
def nodesCreated (t : List Event) : Nat :=
  (t.filterMap fun e => match e with
    | .createNodes k => some k
    | _ => none).sum

/-- The nodes an internet stack was installed on, in order. -/
def stackInstalls (t : List Event) : List Nat :=
  t.filterMap fun e => match e with
    | .installStack v => some v
    | _ => none

/-- The address assignments performed by a trace, in order. -/
def assignments (t : List Event) : List (SubnetBlock × Device) :=
  t.filterMap fun e => match e with
    | .assignAddress b d => some (b, d)
    | _ => none

/-- The tap-bridge installations performed by a trace, in order:
(node, device) pairs. -/
def tapInstalls (t : List Event) : List (Nat × Device) :=
  t.filterMap fun e => match e with
    | .tapBridgeInstall v d => some (v, d)
    | _ => none

/-- The devices that received an address. -/
def addressedDevices (t : List Event) : List Device :=
  (assignments t).map (fun p => p.2)

/-- A node is an OS-bridge endpoint when a tap bridge was installed on it. -/
def isOsBridgeEndpoint (t : List Event) (i : Nat) : Prop :=
  i ∈ (tapInstalls t).map (fun p => p.1)

/-- A node is a router when the internet stack was installed on it. -/
def isRouter (t : List Event) (i : Nat) : Prop :=
  i ∈ stackInstalls t

/-- The node a device is attached to: member `devIdx` of the node container
its link was installed on. -/
def deviceNode (t : List Event) (d : Device) : Option Nat :=
  ((createdLinks t)[d.linkIdx]?).map fun p =>
    if d.devIdx = 0 then p.1 else p.2

/-! ### Helper lemmas: computing the extractors on `mainTrace` -/

theorem filterMap_flatMap {α β γ : Type} (l : List α) (g : α → List β) (f : β → Option γ) :
    (l.flatMap g).filterMap f = l.flatMap fun a => (g a).filterMap f := by
  induction l with
  | nil => rfl
  | cons x xs ih => simp [List.flatMap_cons, List.filterMap_append, ih]

theorem flatMap_single {α β : Type} (l : List α) (f : α → β) :
    (l.flatMap fun a => [f a]) = l.map f := by
  induction l with
  | nil => rfl
  | cons x xs ih => simp [List.flatMap_cons, ih]

theorem filterMap_map_none {α β γ : Type} (l : List α) (g : α → β) (f : β → Option γ)
    (hf : ∀ a, f (g a) = none) : (l.map g).filterMap f = [] := by
  induction l with
  | nil => rfl
  | cons x xs ih => simp [hf, ih]

theorem filterMap_map_some {α β γ : Type} (l : List α) (g : α → β) (f : β → Option γ)
    (h : α → γ) (hf : ∀ a, f (g a) = some (h a)) : (l.map g).filterMap f = l.map h := by
  induction l with
  | nil => rfl
  | cons x xs ih => simp [hf, ih]

theorem flatMap_const_nil {α β : Type} (l : List α) :
    (l.flatMap fun _ => ([] : List β)) = [] := by
  induction l with
  | nil => rfl
  | cons x xs ih => simp [ih]

theorem filterMap_some_eq_map {α β : Type} (l : List α) (f : α → β) :
    l.filterMap (fun a => some (f a)) = l.map f := by
  induction l with
  | nil => rfl
  | cons x xs ih => simp [ih]

theorem filterMap_const_none {α β : Type} (l : List α) :
    l.filterMap (fun _ => (none : Option β)) = [] := by
  induction l with
  | nil => rfl
  | cons x xs ih => simp [ih]

theorem createdLinks_mainTrace (n delayNs : Nat) :
    createdLinks (mainTrace n delayNs) =
      (0, 1) :: (((List.range (n - 1)).map fun k => (k + 1, k + 2)) ++ [(n, n + 1)]) := by
  by_cases hn : n = 0 <;>
    simp [mainTrace, buildPhase, createdLinks, List.filterMap_append, filterMap_flatMap,
      flatMap_single, filterMap_map_none, hn]

theorem stackInstalls_mainTrace (n delayNs : Nat) :
    stackInstalls (mainTrace n delayNs) = (List.range n).map (fun k => k + 1) := by
  by_cases hn : n = 0 <;>
    simp [mainTrace, buildPhase, stackInstalls, List.filterMap_append, filterMap_flatMap,
      flatMap_const_nil, filterMap_some_eq_map, Function.comp_def, hn]

theorem nodesCreated_mainTrace (n delayNs : Nat) :
    nodesCreated (mainTrace n delayNs) = 2 + n := by
  by_cases hn : n = 0 <;>
    simp [mainTrace, buildPhase, nodesCreated, List.filterMap_append, filterMap_flatMap,
      flatMap_const_nil, filterMap_const_none, Function.comp_def, hn]

theorem assignments_mainTrace (n delayNs : Nat) :
    assignments (mainTrace n delayNs) =
      (subnetForOctet 0, ⟨0, 1⟩) ::
        (((List.range (n - 1)).flatMap fun k =>
            [(subnetForOctet (k + 1), ⟨k + 1, 0⟩), (subnetForOctet (k + 1), ⟨k + 1, 1⟩)])
          ++ [(subnetForOctet n, ⟨n, 0⟩)]) := by
  by_cases hn : n = 0 <;>
    simp [mainTrace, buildPhase, assignments, List.filterMap_append, filterMap_flatMap,
      filterMap_map_none, hn]

theorem tapInstalls_mainTrace (n delayNs : Nat) :
    tapInstalls (mainTrace n delayNs) = [(0, ⟨0, 0⟩), (n + 1, ⟨n, 1⟩)] := by
  by_cases hn : n = 0 <;>
    simp [mainTrace, buildPhase, tapInstalls, List.filterMap_append, filterMap_flatMap,
      flatMap_const_nil, Function.comp_def, hn]

theorem linkSettings_mainTrace (n delayNs : Nat) :
    linkSettings (mainTrace n delayNs) =
      (1000, delayNs) :: (((List.range (n - 1)).map fun _ => (1000, delayNs))
        ++ [(1000, delayNs)]) := by
  by_cases hn : n = 0 <;>
    simp [mainTrace, buildPhase, linkSettings, List.filterMap_append, filterMap_flatMap,
      flatMap_single, filterMap_map_none, hn]

/-! ### Claim theorems -/

/-- C1: for every routerCount in [1,63], building the topology creates
exactly routerCount+2 endpoints and exactly routerCount+1 links;
endpoint 0 and endpoint routerCount+1 are OS-bridge endpoints and
endpoints 1..routerCount (and only those) are routers. -/
theorem chain_counts_and_roles (n delayNs : Nat) (h1 : 1 ≤ n) (h2 : n ≤ 63) :
    nodesCreated (mainTrace n delayNs) = n + 2 ∧
    (createdLinks (mainTrace n delayNs)).length = n + 1 ∧
    (∀ i, isOsBridgeEndpoint (mainTrace n delayNs) i ↔ (i = 0 ∨ i = n + 1)) ∧
    (∀ i, isRouter (mainTrace n delayNs) i ↔ (1 ≤ i ∧ i ≤ n)) := by
  refine ⟨by rw [nodesCreated_mainTrace]; omega, ?_, ?_, ?_⟩
  · rw [createdLinks_mainTrace]; simp; omega
  · intro i
    simp [isOsBridgeEndpoint, tapInstalls_mainTrace]
  · intro i
    simp only [isRouter, stackInstalls_mainTrace, List.mem_map, List.mem_range]
    constructor
    · rintro ⟨k, hk, rfl⟩; omega
    · rintro ⟨hi1, hi2⟩; exact ⟨i - 1, by omega, by omega⟩

/-- Witness for C1 at routerCount 3, delay 50000 ns. -/
theorem chain_counts_and_roles_witness :
    nodesCreated (mainTrace 3 50000) = 3 + 2 ∧
    (createdLinks (mainTrace 3 50000)).length = 3 + 1 ∧
    (∀ i, isOsBridgeEndpoint (mainTrace 3 50000) i ↔ (i = 0 ∨ i = 3 + 1)) ∧
    (∀ i, isRouter (mainTrace 3 50000) i ↔ (1 ≤ i ∧ i ≤ 3)) :=
  chain_counts_and_roles 3 50000 (by decide) (by decide)

/-- C9: the internet stack is installed exactly on the router endpoints
1..routerCount, and in particular on neither OS-bridge endpoint (0 and
routerCount+1). -/
theorem stack_installed_on_routers_only (n delayNs : Nat) (h1 : 1 ≤ n) (h2 : n ≤ 63) :
    (∀ i, i ∈ stackInstalls (mainTrace n delayNs) ↔ (1 ≤ i ∧ i ≤ n)) ∧
    0 ∉ stackInstalls (mainTrace n delayNs) ∧
    (n + 1) ∉ stackInstalls (mainTrace n delayNs) := by
  have key : ∀ i, i ∈ stackInstalls (mainTrace n delayNs) ↔ (1 ≤ i ∧ i ≤ n) := by
    intro i
    simp only [stackInstalls_mainTrace, List.mem_map, List.mem_range]
    constructor
    · rintro ⟨k, hk, rfl⟩; omega
    · rintro ⟨hi1, hi2⟩; exact ⟨i - 1, by omega, by omega⟩
  refine ⟨key, ?_, ?_⟩
  · intro h; have := (key 0).mp h; omega
  · intro h; have := (key (n + 1)).mp h; omega

/-- Witness for C9 at routerCount 2, delay 50000 ns. -/
theorem stack_installed_on_routers_only_witness :
    (∀ i, i ∈ stackInstalls (mainTrace 2 50000) ↔ (1 ≤ i ∧ i ≤ 2)) ∧
    0 ∉ stackInstalls (mainTrace 2 50000) ∧
    (2 + 1) ∉ stackInstalls (mainTrace 2 50000) :=
  stack_installed_on_routers_only 2 50000 (by decide) (by decide)

/-- C7: the two devices handed to the tap-bridge installer are exactly the
non-router-facing device of the first link (device index 0, attached to
endpoint 0) and the non-router-facing device of the last link (device
index 1, attached to endpoint routerCount+1), in that order; neither
attachment node is a router. -/
theorem tap_devices_outer (n delayNs : Nat) (h1 : 1 ≤ n) (h2 : n ≤ 63) :
    tapInstalls (mainTrace n delayNs) = [(0, ⟨0, 0⟩), (n + 1, ⟨n, 1⟩)] ∧
    (createdLinks (mainTrace n delayNs)).head? = some (0, 1) ∧
    (createdLinks (mainTrace n delayNs)).getLast? = some (n, n + 1) ∧
    (createdLinks (mainTrace n delayNs)).length = n + 1 ∧
    deviceNode (mainTrace n delayNs) ⟨0, 0⟩ = some 0 ∧
    deviceNode (mainTrace n delayNs) ⟨n, 1⟩ = some (n + 1) ∧
    ¬ isRouter (mainTrace n delayNs) 0 ∧ ¬ isRouter (mainTrace n delayNs) (n + 1) := by
  obtain ⟨m, rfl⟩ : ∃ m, n = m + 1 := ⟨n - 1, by omega⟩
  refine ⟨tapInstalls_mainTrace _ _, ?_, ?_, ?_, ?_, ?_, ?_, ?_⟩
  · rw [createdLinks_mainTrace]; rfl
  · rw [createdLinks_mainTrace]
    rw [show ((0, 1) :: (((List.range (m + 1 - 1)).map fun k => (k + 1, k + 2))
        ++ [(m + 1, m + 1 + 1)])) =
      ((0, 1) :: ((List.range (m + 1 - 1)).map fun k => (k + 1, k + 2)))
        ++ [(m + 1, m + 1 + 1)] by simp]
    exact List.getLast?_concat _
  · rw [createdLinks_mainTrace]; simp
  · simp [deviceNode, createdLinks_mainTrace]
  · simp only [deviceNode, createdLinks_mainTrace]
    rw [List.getElem?_cons_succ, List.getElem?_append_right (by simp)]
    simp
  · intro h
    simp only [isRouter, stackInstalls_mainTrace, List.mem_map, List.mem_range] at h
    omega
  · intro h
    simp only [isRouter, stackInstalls_mainTrace, List.mem_map, List.mem_range] at h
    obtain ⟨k, hk, hke⟩ := h; omega

/-- Witness for C7 at routerCount 2, delay 50000 ns. -/
theorem tap_devices_outer_witness :
    tapInstalls (mainTrace 2 50000) = [(0, ⟨0, 0⟩), (2 + 1, ⟨2, 1⟩)] ∧
    (createdLinks (mainTrace 2 50000)).head? = some (0, 1) ∧
    (createdLinks (mainTrace 2 50000)).getLast? = some (2, 2 + 1) ∧
    (createdLinks (mainTrace 2 50000)).length = 2 + 1 ∧
    deviceNode (mainTrace 2 50000) ⟨0, 0⟩ = some 0 ∧
    deviceNode (mainTrace 2 50000) ⟨2, 1⟩ = some (2 + 1) ∧
    ¬ isRouter (mainTrace 2 50000) 0 ∧ ¬ isRouter (mainTrace 2 50000) (2 + 1) :=
  tap_devices_outer 2 50000 (by decide) (by decide)

/-- C10: every link is created with the one hard-coded data rate
(1000 Mbps) and the single CLI-configured delay; no two links can differ
in either attribute. -/
theorem uniform_link_attributes (n delayNs : Nat) (h1 : 1 ≤ n) (h2 : n ≤ 63) :
    (linkSettings (mainTrace n delayNs)).length = n + 1 ∧
    (∀ s ∈ linkSettings (mainTrace n delayNs), s = (1000, delayNs)) ∧
    (∀ s ∈ linkSettings (mainTrace n delayNs), ∀ u ∈ linkSettings (mainTrace n delayNs),
      s.1 = u.1 ∧ s.2 = u.2) := by
  have hall : ∀ s ∈ linkSettings (mainTrace n delayNs), s = (1000, delayNs) := by
    intro s hs
    rw [linkSettings_mainTrace] at hs
    simp only [List.mem_cons, List.mem_append, List.mem_map, List.mem_singleton,
      List.mem_range] at hs
    rcases hs with h | (⟨k, _, h⟩ | (h | h)) <;> simp_all
  refine ⟨?_, hall, ?_⟩
  · rw [linkSettings_mainTrace]; simp; omega
  · intro s hs u hu
    rw [hall s hs, hall u hu]; exact ⟨rfl, rfl⟩

/-- Witness for C10 at routerCount 2, delay 77 ns. -/
theorem uniform_link_attributes_witness :
    (linkSettings (mainTrace 2 77)).length = 2 + 1 ∧
    (∀ s ∈ linkSettings (mainTrace 2 77), s = (1000, 77)) ∧
    (∀ s ∈ linkSettings (mainTrace 2 77), ∀ u ∈ linkSettings (mainTrace 2 77),
      s.1 = u.1 ∧ s.2 = u.2) :=
  uniform_link_attributes 2 77 (by decide) (by decide)

/-- Membership in the addressed-device list, computed. -/
theorem mem_addressedDevices (n delayNs : Nat) (d : Device) :
    d ∈ addressedDevices (mainTrace n delayNs) ↔
      (d = ⟨0, 1⟩ ∨ (∃ k, k < n - 1 ∧ (d = ⟨k + 1, 0⟩ ∨ d = ⟨k + 1, 1⟩)) ∨ d = ⟨n, 0⟩) := by
  simp only [addressedDevices, assignments_mainTrace, List.map_cons, List.map_append,
    List.map_flatMap, List.mem_cons, List.mem_append, List.mem_flatMap, List.mem_range,
    List.mem_singleton, List.map_nil, List.not_mem_nil, or_false, false_and, exists_false]

/-- C3: on the first link only device 1 (router side) is addressed, on the
last link only device 0 (router side) is addressed, on every interior
link both devices are addressed; the OS-facing devices of the first and
last links stay unaddressed. -/
theorem per_link_addressing_pattern (n delayNs : Nat) (h1 : 1 ≤ n) (h2 : n ≤ 63) :
    (⟨0, 1⟩ : Device) ∈ addressedDevices (mainTrace n delayNs) ∧
    (⟨0, 0⟩ : Device) ∉ addressedDevices (mainTrace n delayNs) ∧
    (⟨n, 0⟩ : Device) ∈ addressedDevices (mainTrace n delayNs) ∧
    (⟨n, 1⟩ : Device) ∉ addressedDevices (mainTrace n delayNs) ∧
    ∀ r, 1 ≤ r → r < n →
      (⟨r, 0⟩ : Device) ∈ addressedDevices (mainTrace n delayNs) ∧
      (⟨r, 1⟩ : Device) ∈ addressedDevices (mainTrace n delayNs) := by
  refine ⟨?_, ?_, ?_, ?_, ?_⟩
  · exact (mem_addressedDevices n delayNs _).mpr (Or.inl rfl)
  · intro h
    rcases (mem_addressedDevices n delayNs _).mp h with h | (⟨k, hk, h | h⟩ | h) <;>
      simp only [Device.mk.injEq] at h <;> omega
  · exact (mem_addressedDevices n delayNs _).mpr (Or.inr (Or.inr rfl))
  · intro h
    rcases (mem_addressedDevices n delayNs _).mp h with h | (⟨k, hk, h | h⟩ | h) <;>
      simp only [Device.mk.injEq] at h <;> omega
  · intro r hr1 hr2
    obtain ⟨m, rfl⟩ : ∃ m, r = m + 1 := ⟨r - 1, by omega⟩
    exact ⟨(mem_addressedDevices n delayNs _).mpr (Or.inr (Or.inl ⟨m, by omega, Or.inl rfl⟩)),
      (mem_addressedDevices n delayNs _).mpr (Or.inr (Or.inl ⟨m, by omega, Or.inr rfl⟩))⟩

/-- Witness for C3 at routerCount 3, delay 50000 ns. -/
theorem per_link_addressing_pattern_witness :
    (⟨0, 1⟩ : Device) ∈ addressedDevices (mainTrace 3 50000) ∧
    (⟨0, 0⟩ : Device) ∉ addressedDevices (mainTrace 3 50000) ∧
    (⟨3, 0⟩ : Device) ∈ addressedDevices (mainTrace 3 50000) ∧
    (⟨3, 1⟩ : Device) ∉ addressedDevices (mainTrace 3 50000) ∧
    ∀ r, 1 ≤ r → r < 3 →
      (⟨r, 0⟩ : Device) ∈ addressedDevices (mainTrace 3 50000) ∧
      (⟨r, 1⟩ : Device) ∈ addressedDevices (mainTrace 3 50000) :=
  per_link_addressing_pattern 3 50000 (by decide) (by decide)

theorem land255_eq (i : Nat) (h : i < 256) : i &&& 255 = i := by
  have h2 : i &&& 2 ^ 8 - 1 = i % 2 ^ 8 := Nat.and_pow_two_sub_one_eq_mod i 8
  norm_num at h2
  rw [h2]
  omega

/-- Distinct third octets below 256 give disjoint /24 blocks. -/
theorem subnetForOctet_not_overlaps (i j : Nat) (hi : i < 256) (hj : j < 256)
    (hne : i ≠ j) : ¬ (subnetForOctet i).overlaps (subnetForOctet j) := by
  rintro ⟨x, hxi, hxj⟩
  obtain ⟨-, -, h3i, -⟩ := hxi
  obtain ⟨-, -, h3j, -⟩ := hxj
  simp only [subnetForOctet] at h3i h3j
  rw [land255_eq i hi] at h3i
  rw [land255_eq j hj] at h3j
  exact hne (by rw [← h3i, ← h3j])

/-- Membership in the assignment list, computed. -/
theorem mem_assignments (n delayNs : Nat) (p : SubnetBlock × Device) :
    p ∈ assignments (mainTrace n delayNs) ↔
      (p = (subnetForOctet 0, ⟨0, 1⟩) ∨
       (∃ k, k < n - 1 ∧ (p = (subnetForOctet (k + 1), ⟨k + 1, 0⟩) ∨
          p = (subnetForOctet (k + 1), ⟨k + 1, 1⟩))) ∨
       p = (subnetForOctet n, ⟨n, 0⟩)) := by
  simp only [assignments_mainTrace, List.mem_cons, List.mem_append, List.mem_flatMap,
    List.mem_range, List.mem_singleton, List.not_mem_nil, or_false]

/-- C2: every address assignment gives the device of link i the block
172.20.i.0/255.255.255.0; each link index 0..routerCount does receive
its block; and the blocks of two distinct links never overlap. -/
theorem subnet_per_link_unique (n delayNs : Nat) (h1 : 1 ≤ n) (h2 : n ≤ 63) :
    (∀ p ∈ assignments (mainTrace n delayNs), p.1 = subnetForOctet p.2.linkIdx) ∧
    (∀ i ≤ n, ∃ d : Device, (subnetForOctet i, d) ∈ assignments (mainTrace n delayNs) ∧
      d.linkIdx = i) ∧
    (∀ i ≤ n, ∀ j ≤ n, i ≠ j → ¬ (subnetForOctet i).overlaps (subnetForOctet j)) := by
  refine ⟨?_, ?_, ?_⟩
  · intro p hp
    rcases (mem_assignments n delayNs p).mp hp with h | (⟨k, hk, h | h⟩ | h) <;> rw [h]
  · intro i hi
    by_cases h0 : i = 0
    · subst h0
      exact ⟨⟨0, 1⟩, (mem_assignments n delayNs _).mpr (Or.inl rfl), rfl⟩
    by_cases hlast : i = n
    · subst hlast
      exact ⟨⟨i, 0⟩, (mem_assignments i delayNs _).mpr (Or.inr (Or.inr rfl)), rfl⟩
    obtain ⟨m, rfl⟩ : ∃ m, i = m + 1 := ⟨i - 1, by omega⟩
    exact ⟨⟨m + 1, 0⟩,
      (mem_assignments n delayNs _).mpr (Or.inr (Or.inl ⟨m, by omega, Or.inl rfl⟩)), rfl⟩
  · intro i hi j hj hne
    exact subnetForOctet_not_overlaps i j (by omega) (by omega) hne

/-- Witness for C2 at routerCount 2, delay 50000 ns. -/
theorem subnet_per_link_unique_witness :
    (∀ p ∈ assignments (mainTrace 2 50000), p.1 = subnetForOctet p.2.linkIdx) ∧
    (∀ i ≤ 2, ∃ d : Device, (subnetForOctet i, d) ∈ assignments (mainTrace 2 50000) ∧
      d.linkIdx = i) ∧
    (∀ i ≤ 2, ∀ j ≤ 2, i ≠ j → ¬ (subnetForOctet i).overlaps (subnetForOctet j)) :=
  subnet_per_link_unique 2 50000 (by decide) (by decide)

/-- C4 counterexample: with routerCount 1 the build does NOT reuse one link
as both first and last — the first created link (nodes 0-1) and the last
created link (nodes 1-2) are distinct. -/
theorem first_and_last_link_differ_for_one_router :
    (createdLinks (mainTrace 1 50000)).head? ≠ (createdLinks (mainTrace 1 50000)).getLast? := by
  decide

/-- C4 (amended): when routerCount == 1 the chain has exactly two distinct
links; the single router (endpoint 1) has one device on each link, and
each of those two router-side devices receives exactly one SubnetBlock
(no device is addressed twice). -/
theorem one_router_each_device_one_block (delayNs : Nat) :
    (createdLinks (mainTrace 1 delayNs)).length = 2 ∧
    (createdLinks (mainTrace 1 delayNs)).head? ≠ (createdLinks (mainTrace 1 delayNs)).getLast? ∧
    (addressedDevices (mainTrace 1 delayNs)).count ⟨0, 1⟩ = 1 ∧
    (addressedDevices (mainTrace 1 delayNs)).count ⟨1, 0⟩ = 1 ∧
    deviceNode (mainTrace 1 delayNs) ⟨0, 1⟩ = some 1 ∧
    deviceNode (mainTrace 1 delayNs) ⟨1, 0⟩ = some 1 := by
  have hlinks : createdLinks (mainTrace 1 delayNs) = [(0, 1), (1, 2)] := rfl
  refine ⟨by rw [hlinks]; rfl, by rw [hlinks]; simp, rfl, rfl, rfl, rfl⟩

/-- Witness for the amended C4 at delay 50000 ns. -/
theorem one_router_each_device_one_block_witness :
    (createdLinks (mainTrace 1 50000)).length = 2 ∧
    (createdLinks (mainTrace 1 50000)).head? ≠ (createdLinks (mainTrace 1 50000)).getLast? ∧
    (addressedDevices (mainTrace 1 50000)).count ⟨0, 1⟩ = 1 ∧
    (addressedDevices (mainTrace 1 50000)).count ⟨1, 0⟩ = 1 ∧
    deviceNode (mainTrace 1 50000) ⟨0, 1⟩ = some 1 ∧
    deviceNode (mainTrace 1 50000) ⟨1, 0⟩ = some 1 :=
  one_router_each_device_one_block 50000

/-- C5: build(1) round trip — 3 endpoints typed (OS, router, OS), 2 links,
exactly the two blocks 172.20.0.0/24 and 172.20.1.0/24 assigned, both to
devices of the router (endpoint 1), one per link, with the OS-facing
devices of both links unaddressed. -/
theorem build_one_router_roundtrip (delayNs : Nat) :
    nodesCreated (mainTrace 1 delayNs) = 3 ∧
    createdLinks (mainTrace 1 delayNs) = [(0, 1), (1, 2)] ∧
    assignments (mainTrace 1 delayNs) =
      [(subnetForOctet 0, ⟨0, 1⟩), (subnetForOctet 1, ⟨1, 0⟩)] ∧
    isOsBridgeEndpoint (mainTrace 1 delayNs) 0 ∧
    isRouter (mainTrace 1 delayNs) 1 ∧
    isOsBridgeEndpoint (mainTrace 1 delayNs) 2 ∧
    ¬ isRouter (mainTrace 1 delayNs) 0 ∧ ¬ isRouter (mainTrace 1 delayNs) 2 ∧
    deviceNode (mainTrace 1 delayNs) ⟨0, 1⟩ = some 1 ∧
    deviceNode (mainTrace 1 delayNs) ⟨1, 0⟩ = some 1 ∧
    (⟨0, 0⟩ : Device) ∉ addressedDevices (mainTrace 1 delayNs) ∧
    (⟨1, 1⟩ : Device) ∉ addressedDevices (mainTrace 1 delayNs) := by
  have htap : tapInstalls (mainTrace 1 delayNs) = [(0, ⟨0, 0⟩), (2, ⟨1, 1⟩)] := rfl
  have hstack : stackInstalls (mainTrace 1 delayNs) = [1] := rfl
  have haddr : addressedDevices (mainTrace 1 delayNs) = [⟨0, 1⟩, ⟨1, 0⟩] := rfl
  refine ⟨rfl, rfl, rfl, ?_, ?_, ?_, ?_, ?_, rfl, rfl, ?_, ?_⟩
  · simp [isOsBridgeEndpoint, htap]
  · simp [isRouter, hstack]
  · simp [isOsBridgeEndpoint, htap]
  · simp [isRouter, hstack]
  · simp [isRouter, hstack]
  · simp [haddr]
  · simp [haddr]

/-- Witness for C5 at delay 50000 ns. -/
theorem build_one_router_roundtrip_witness :
    nodesCreated (mainTrace 1 50000) = 3 ∧
    createdLinks (mainTrace 1 50000) = [(0, 1), (1, 2)] ∧
    assignments (mainTrace 1 50000) =
      [(subnetForOctet 0, ⟨0, 1⟩), (subnetForOctet 1, ⟨1, 0⟩)] ∧
    isOsBridgeEndpoint (mainTrace 1 50000) 0 ∧
    isRouter (mainTrace 1 50000) 1 ∧
    isOsBridgeEndpoint (mainTrace 1 50000) 2 ∧
    ¬ isRouter (mainTrace 1 50000) 0 ∧ ¬ isRouter (mainTrace 1 50000) 2 ∧
    deviceNode (mainTrace 1 50000) ⟨0, 1⟩ = some 1 ∧
    deviceNode (mainTrace 1 50000) ⟨1, 0⟩ = some 1 ∧
    (⟨0, 0⟩ : Device) ∉ addressedDevices (mainTrace 1 50000) ∧
    (⟨1, 1⟩ : Device) ∉ addressedDevices (mainTrace 1 50000) :=
  build_one_router_roundtrip 50000

/-- C6: for a router count of 0 or above 63 (anywhere in the uint16 input
domain), the program exits with code 1 and performs no construction at
all — no nodes, links, address assignments or tap bridges. -/
theorem invalid_router_count_is_noop (n delayNs : Nat) (hdom : n < 65536)
    (h : n = 0 ∨ 63 < n) :
    emulatorMain n delayNs = (1, []) ∧
    nodesCreated (emulatorMain n delayNs).2 = 0 ∧
    createdLinks (emulatorMain n delayNs).2 = [] ∧
    assignments (emulatorMain n delayNs).2 = [] ∧
    tapInstalls (emulatorMain n delayNs).2 = [] := by
  have he : emulatorMain n delayNs = (1, []) := by
    simp only [emulatorMain, if_pos h]
  rw [he]
  exact ⟨rfl, rfl, rfl, rfl, rfl⟩

/-- Witness for C6 at routerCount 64, delay 50000 ns. -/
theorem invalid_router_count_is_noop_witness :
    emulatorMain 64 50000 = (1, []) ∧
    nodesCreated (emulatorMain 64 50000).2 = 0 ∧
    createdLinks (emulatorMain 64 50000).2 = [] ∧
    assignments (emulatorMain 64 50000).2 = [] ∧
    tapInstalls (emulatorMain 64 50000).2 = [] :=
  invalid_router_count_is_noop 64 50000 (by decide) (by decide)

/-- Recognizes an address-assignment operation. -/
def isAssignEv : Event → Bool
  | .assignAddress _ _ => true
  | _ => false

/-- Recognizes the routing-table population operation. -/
def isPopulateEv : Event → Bool
  | .populateRoutingTables => true
  | _ => false

/-- Recognizes the simulation-run operation. -/
def isRunEv : Event → Bool
  | .simulatorRun => true
  | _ => false

theorem filter_flatMap {α β : Type} (l : List α) (g : α → List β) (p : β → Bool) :
    (l.flatMap g).filter p = l.flatMap fun a => (g a).filter p := by
  induction l with
  | nil => rfl
  | cons x xs ih => simp [List.flatMap_cons, List.filter_append, ih]

theorem filter_map_false {α β : Type} (l : List α) (g : α → β) (p : β → Bool)
    (hp : ∀ a, p (g a) = false) : (l.map g).filter p = [] := by
  induction l with
  | nil => rfl
  | cons x xs ih => simp [hp, ih]

theorem buildPhase_filter_populate (n delayNs : Nat) :
    (buildPhase n delayNs).filter isPopulateEv = [] := by
  simp [buildPhase, List.filter_append, filter_flatMap, flatMap_const_nil,
    filter_map_false, isPopulateEv]

theorem buildPhase_filter_run (n delayNs : Nat) :
    (buildPhase n delayNs).filter isRunEv = [] := by
  simp [buildPhase, List.filter_append, filter_flatMap, flatMap_const_nil,
    filter_map_false, isRunEv]

/-- For a valid router count the trace splits as the construction phase
followed by `PopulateRoutingTables` and `Simulator::Run()`. -/
theorem mainTrace_split (n delayNs : Nat) (hne : n ≠ 0) :
    mainTrace n delayNs =
      buildPhase n delayNs ++ [Event.populateRoutingTables, Event.simulatorRun] := by
  rw [mainTrace, if_pos hne]
  rfl

/-- In `L ++ [a, b]` with `p` false on `L`, true on `a` and false on `b`,
the unique index holding an element satisfying `p` is `L.length`. -/
theorem pos_unique_of_append_pair {α : Type} (L : List α) (a b : α) (p : α → Bool)
    (hL : ∀ x ∈ L, p x = false) (ha : p a = true) (hb : p b = false)
    (j : Nat) (e : α) (he : (L ++ [a, b])[j]? = some e) (hp : p e = true) :
    j = L.length := by
  rcases lt_trichotomy j L.length with h | h | h
  · exfalso
    rw [List.getElem?_append_left h] at he
    rw [hL e (List.getElem?_mem he)] at hp
    exact Bool.false_ne_true hp
  · exact h
  · exfalso
    rw [List.getElem?_append_right (by omega)] at he
    rcases Nat.lt_or_ge (j - L.length) 2 with hm | hm
    · have h1 : j - L.length = 1 := by omega
      rw [h1] at he
      rw [List.getElem?_cons_succ, List.getElem?_cons_zero, Option.some.injEq] at he
      rw [← he] at hp
      rw [hb] at hp
      exact Bool.false_ne_true hp
    · rw [List.getElem?_eq_none (by simpa using hm)] at he
      exact Option.noConfusion he

/-- In `L ++ [a, b]` with `p` false on `a` and `b`, any index holding an
element satisfying `p` lies inside `L`. -/
theorem pos_lt_of_append_pair {α : Type} (L : List α) (a b : α) (p : α → Bool)
    (ha : p a = false) (hb : p b = false)
    (j : Nat) (e : α) (he : (L ++ [a, b])[j]? = some e) (hp : p e = true) :
    j < L.length := by
  by_contra hge
  push_neg at hge
  rw [List.getElem?_append_right hge] at he
  rcases Nat.lt_or_ge (j - L.length) 2 with hm | hm
  · rcases (show j - L.length = 0 ∨ j - L.length = 1 by omega) with h0 | h0 <;>
      rw [h0] at he
    · rw [List.getElem?_cons_zero, Option.some.injEq] at he
      rw [← he, ha] at hp
      exact Bool.false_ne_true hp
    · rw [List.getElem?_cons_succ, List.getElem?_cons_zero, Option.some.injEq] at he
      rw [← he, hb] at hp
      exact Bool.false_ne_true hp
  · rw [List.getElem?_eq_none (by simpa using hm)] at he
    exact Option.noConfusion he

/-- In `L ++ [a, b]` with `p` false on `L` and on `a`, true on `b`, the
unique index holding an element satisfying `p` is `L.length + 1`. -/
theorem pos_last_of_append_pair {α : Type} (L : List α) (a b : α) (p : α → Bool)
    (hL : ∀ x ∈ L, p x = false) (ha : p a = false) (hb : p b = true)
    (j : Nat) (e : α) (he : (L ++ [a, b])[j]? = some e) (hp : p e = true) :
    j = L.length + 1 := by
  rcases lt_trichotomy j L.length with h | h | h
  · exfalso
    rw [List.getElem?_append_left h] at he
    rw [hL e (List.getElem?_mem he)] at hp
    exact Bool.false_ne_true hp
  · exfalso
    subst h
    rw [List.getElem?_append_right (Nat.le_refl _)] at he
    rw [Nat.sub_self, List.getElem?_cons_zero, Option.some.injEq] at he
    rw [← he, ha] at hp
    exact Bool.false_ne_true hp
  · rw [List.getElem?_append_right (by omega)] at he
    rcases Nat.lt_or_ge (j - L.length) 2 with hm | hm
    · omega
    · exfalso
      rw [List.getElem?_eq_none (by simpa using hm)] at he
      exact Option.noConfusion he

/-- C8: on every successful build the routing population runs exactly once,
strictly after every address assignment and strictly before the
simulation run; the `noOfRouters != 0` guard would skip it only in the
zero-router case, which validation makes unreachable. -/
theorem routing_populated_once_in_order (n delayNs : Nat) (h1 : 1 ≤ n) (h2 : n ≤ 63) :
    ((mainTrace n delayNs).filter isPopulateEv).length = 1 ∧
    (∀ (i j : Nat) (e f : Event), (mainTrace n delayNs)[i]? = some e → (mainTrace n delayNs)[j]? = some f →
      isAssignEv e = true → isPopulateEv f = true → i < j) ∧
    (∀ (i j : Nat) (e f : Event), (mainTrace n delayNs)[i]? = some e → (mainTrace n delayNs)[j]? = some f →
      isPopulateEv e = true → isRunEv f = true → i < j) ∧
    ((mainTrace 0 delayNs).filter isPopulateEv).length = 0 := by
  have hne : n ≠ 0 := by omega
  have hsplit := mainTrace_split n delayNs hne
  have hLpop : ∀ x ∈ buildPhase n delayNs, isPopulateEv x = false := by
    intro x hx
    have := (List.filter_eq_nil_iff).mp (buildPhase_filter_populate n delayNs) x hx
    simpa using this
  have hLrun : ∀ x ∈ buildPhase n delayNs, isRunEv x = false := by
    intro x hx
    have := (List.filter_eq_nil_iff).mp (buildPhase_filter_run n delayNs) x hx
    simpa using this
  refine ⟨?_, ?_, ?_, ?_⟩
  · rw [hsplit, List.filter_append, buildPhase_filter_populate]
    rfl
  · intro i j e f hie hjf hassign hpop
    rw [hsplit] at hie hjf
    have hj : j = (buildPhase n delayNs).length :=
      pos_unique_of_append_pair _ Event.populateRoutingTables Event.simulatorRun _
        hLpop rfl rfl j f hjf hpop
    have hi : i < (buildPhase n delayNs).length :=
      pos_lt_of_append_pair _ Event.populateRoutingTables Event.simulatorRun _
        rfl rfl i e hie hassign
    omega
  · intro i j e f hie hjf hpop hrun
    rw [hsplit] at hie hjf
    have hi : i = (buildPhase n delayNs).length :=
      pos_unique_of_append_pair _ Event.populateRoutingTables Event.simulatorRun _
        hLpop rfl rfl i e hie hpop
    have hj : j = (buildPhase n delayNs).length + 1 :=
      pos_last_of_append_pair _ Event.populateRoutingTables Event.simulatorRun _
        hLrun rfl rfl j f hjf hrun
    omega
  · rw [show mainTrace 0 delayNs = buildPhase 0 delayNs ++ [Event.simulatorRun] from by
      rw [mainTrace, if_neg (by simp)]
      rfl]
    rw [List.filter_append, buildPhase_filter_populate]
    rfl

/-- Witness for C8 at routerCount 1, delay 50000 ns. -/
theorem routing_populated_once_in_order_witness :
    ((mainTrace 1 50000).filter isPopulateEv).length = 1 ∧
    (∀ (i j : Nat) (e f : Event), (mainTrace 1 50000)[i]? = some e → (mainTrace 1 50000)[j]? = some f →
      isAssignEv e = true → isPopulateEv f = true → i < j) ∧
    (∀ (i j : Nat) (e f : Event), (mainTrace 1 50000)[i]? = some e → (mainTrace 1 50000)[j]? = some f →
      isPopulateEv e = true → isRunEv f = true → i < j) ∧
    ((mainTrace 0 50000).filter isPopulateEv).length = 0 :=
  routing_populated_once_in_order 1 50000 (by decide) (by decide)

end Emulator
